import Mathlib

/-!
Shallow embedding of the web tier of `i_am_web_music_django`
(`web/views.py`, `web/utils.py`, `web/services/bot_client.py`).

Strings are Lean `String`s; Python string helpers (`strip`, `isdigit`,
`lower`, truthiness of `or`) are modelled below over the underlying
character lists, matching Python semantics on the ASCII inputs the
handlers deal with.  Handlers are pure functions from their request
inputs, the browser session and a bot-service oracle to a triple
(response, new session, list of bot calls made); the call list makes
"no bot call is made" provable.
-/

namespace WebMusic

/-- Python `s.strip()`: drop whitespace from both ends. -/
def pyStrip (s : String) : String :=
  ⟨((s.data.dropWhile Char.isWhitespace).reverse.dropWhile Char.isWhitespace).reverse⟩

/-- Python `s.lower()`. -/
def pyLower (s : String) : String :=
  ⟨s.data.map Char.toLower⟩

/-- Python `s.isdigit()`: non-empty and every character a digit
(restricted to decimal digits, the only ones these handlers meet). -/
def pyIsDigit (s : String) : Bool :=
  !s.data.isEmpty && s.data.all Char.isDigit

/-- Python `a or b` on an optional string `a` (absent and `""` are falsy). -/
def pyOrStr (a : Option String) (b : String) : String :=
  match a with
  | some s => if s = "" then b else s
  | none => b

/-- `int(s)` for a digit-only string. -/
def strToNat (s : String) : Nat :=
  s.data.foldl (fun a c => a * 10 + (c.toNat - 48)) 0

/-- Digits to the number they denote, most significant first. -/
def digitsToNat (l : List Char) : Nat :=
  l.foldl (fun a c => a * 10 + (c.toNat - 48)) 0

/-- Python `int(s)` as used for `limit` parsing: trimmed optional sign then
digits, `none` on anything `int()` would reject. -/
def pyInt (s : String) : Option Int :=
  let t := (pyStrip s).data
  let (sign, ds) :=
    match t with
    | '-' :: rest => ((-1 : Int), rest)
    | '+' :: rest => ((1 : Int), rest)
    | _ => ((1 : Int), t)
  if !ds.isEmpty && ds.all Char.isDigit then
    some (sign * (digitsToNat ds : Int))
  else none

/-- `web/utils.py` `normalize_code`: strip, keep only if `isdigit`. -/
def normalize_code (code : String) : String :=
  let c := pyStrip code
  if pyIsDigit c then c else ""

/-- The two session keys the coordinators touch (`linked`, `linked_code`);
`none` models an absent key. -/
structure Session where
  linked : Option Bool
  linked_code : Option String
deriving Repr, DecidableEq

/-- A bot-service result as the views consume it: HTTP status and the
body's `error` field (`none` when the body has no `error`). -/
structure BotResult where
  status : Nat
  error : Option String
deriving Repr, DecidableEq

/-- The JSON response bodies the handlers build, as one record of the
fields that occur (absent fields are `none`). -/
structure Resp where
  httpStatus : Nat
  status : Option String := none
  code : Option String := none
  error : Option String := none
  detail : Option String := none
  hint : Option String := none
  expected_key_present : Option Bool := none
deriving Repr, DecidableEq

/-- The error strings `logout` reconciles as "already unlinked"
(`views.py` line 199). -/
def logoutReconcileErrors : List String :=
  ["code not found", "user not found", "invalid code", "user_id or code required"]

/-- `data.get("error") in {...}` of `views.py` line 199. -/
def errInReconcileSet : Option String → Bool
  | some e => logoutReconcileErrors.contains e
  | none => false

/-- Code resolution of `logout` (`views.py` lines 179-183): GET uses the
query parameter then the session; POST uses body, then query, then session. -/
def logoutResolveCode (isGet : Bool) (bodyCode queryCode : Option String)
    (sess : Session) : String :=
  if isGet then pyOrStr queryCode (pyOrStr sess.linked_code "")
  else pyOrStr bodyCode (pyOrStr queryCode (pyOrStr sess.linked_code ""))

/-- The `logout` view (`views.py` lines 177-213).  `hasApiKey` models
`bool(_resolve_api_key())` used in the 401 response.  Returns the
response, the session after the request, and the codes POSTed to the bot. -/
def logout (isGet : Bool) (bodyCode queryCode : Option String) (sess : Session)
    (bot : String → BotResult) (hasApiKey : Bool) :
    Resp × Session × List String :=
  let code0 := pyStrip (logoutResolveCode isGet bodyCode queryCode sess)
  let code := if !(code0 = "") && !(pyIsDigit code0) then "" else code0
  if code = "" then
    ({ httpStatus := 200, status := some "not_linked" },
     { linked := none, linked_code := none }, [])
  else
    let r := bot code
    if r.status = 200 then
      ({ httpStatus := 200, status := some "logged_out" },
       { linked := none, linked_code := none }, [code])
    else if errInReconcileSet r.error then
      ({ httpStatus := 200, status := some "not_linked" },
       { linked := none, linked_code := none }, [code])
    else if r.status = 401 then
      ({ httpStatus := 502, error := some "bot unauthorized (check API key)",
         hint := some "Ensure Django and bot use the same key in X-Api-Key header.",
         expected_key_present := some hasApiKey }, sess, [code])
    else if 500 ≤ r.status ∧ r.status < 600 then
      ({ httpStatus := 502, error := some "bot service error", detail := r.error },
       sess, [code])
    else
      ({ httpStatus := 400,
         error := some (r.error.getD ("logout failed (" ++ toString r.status ++ ")")),
         detail := r.error }, sess, [code])

/-- The `link` view (`views.py` lines 77-88). -/
def link (bodyCode : Option String) (sess : Session) (bot : String → BotResult) :
    Resp × Session × List String :=
  let code := pyStrip (pyOrStr bodyCode "")
  if code = "" then
    ({ httpStatus := 400, error := some "code required" }, sess, [])
  else
    let r := bot code
    if r.status = 200 then
      ({ httpStatus := 200, status := some "linked", code := some code },
       { linked := some true, linked_code := some code }, [code])
    else
      ({ httpStatus := 400,
         error := some (r.error.getD ("link failed (" ++ toString r.status ++ ")")) },
       sess, [code])

/-- The `send_song` view (`views.py` lines 98-112).  Bot calls are
(code, query) pairs. -/
def send_song (bodyQuery bodyCode : Option String) (sess : Session)
    (bot : String → String → BotResult) :
    Resp × Session × List (String × String) :=
  let query := pyStrip (pyOrStr bodyQuery "")
  let code := pyStrip (pyOrStr bodyCode (pyOrStr sess.linked_code ""))
  if query = "" then
    ({ httpStatus := 400, error := some "query required" }, sess, [])
  else if code = "" then
    ({ httpStatus := 400, error := some "no linked code (link first)" }, sess, [])
  else
    let r := bot code query
    if r.status = 200 then
      ({ httpStatus := 200, status := some "scheduled" },
       { sess with linked_code := some code }, [(code, query)])
    else
      ({ httpStatus := 400,
         error := some (r.error.getD ("send failed (" ++ toString r.status ++ ")")) },
       sess, [(code, query)])

/-- A successfully parsed bot response body, reduced to its `error` field. -/
structure BotBody where
  error : Option String
deriving Repr, DecidableEq

/-- Transport outcome of one `requests.post` call: either an exception with
its message, or an HTTP response with status, the parse result of its JSON
body (`none` when `r.json()` raises), and its raw text. -/
inductive HttpOutcome where
  | exn (msg : String)
  | resp (status : Nat) (parsed : Option BotBody) (text : String)
deriving Repr, DecidableEq

/-- `_api_post` of `views.py` lines 40-52 (identically
`BotHttpClient._post`), as a total function on transport outcomes. -/
def apiPost : HttpOutcome → BotResult
  | .exn msg => ⟨500, some msg⟩
  | .resp st (some b) _ => ⟨st, b.error⟩
  | .resp st none txt => ⟨st, some txt⟩

/-- A row of the externally-owned `history` table, reduced to the fields
the read paths use.  Timestamps are seconds. -/
structure HistoryRow where
  id : Nat
  user_id : Nat
  track_id : Nat
  downloaded_at : Int
deriving Repr, DecidableEq

/-- A row of the `users` table: internal id and `website_link_code`. -/
structure UserRow where
  id : Nat
  website_link_code : Nat
deriving Repr, DecidableEq

/-- The read-only store the history/charts views query. -/
structure Db where
  users : List UserRow
  history : List HistoryRow
deriving Repr

/-- One item of the `history` response (only the fields the claims
mention: the track id and the download timestamp). -/
structure HistItem where
  track_id : Nat
  downloaded_at : Int
deriving Repr, DecidableEq

/-- "More recently downloaded first", the order of
`order_by("-downloaded_at")`. -/
def histGe (a b : HistItem) : Prop := b.downloaded_at ≤ a.downloaded_at

instance : DecidableRel histGe := fun a b =>
  inferInstanceAs (Decidable (b.downloaded_at ≤ a.downloaded_at))

instance : IsTotal HistItem histGe :=
  ⟨fun a b => le_total b.downloaded_at a.downloaded_at⟩

instance : IsTrans HistItem histGe :=
  ⟨fun _ _ _ hab hbc => le_trans hbc hab⟩

/-- The `history` view (`views.py` lines 120-160): resolve the code,
digit-check it, look up the user by `website_link_code`, and return that
user's rows ordered by `downloaded_at` descending, capped at 200. -/
def history (queryCode : Option String) (sess : Session) (db : Db) :
    Resp × List HistItem :=
  let code := pyStrip (pyOrStr queryCode (pyOrStr sess.linked_code ""))
  if code = "" then
    ({ httpStatus := 400, error := some "no linked code" }, [])
  else if !(pyIsDigit code) then
    ({ httpStatus := 400, error := some "invalid code" }, [])
  else
    match (db.users.filter (fun u => u.website_link_code = strToNat code)).head? with
    | none => ({ httpStatus := 400, error := some "code not found" }, [])
    | some u =>
      if u.id = 0 then
        ({ httpStatus := 400, error := some "code not found" }, [])
      else
        let rows := (db.history.filter (fun h => h.user_id = u.id)).map
          (fun h => HistItem.mk h.track_id h.downloaded_at)
        ({ httpStatus := 200 }, (List.insertionSort histGe rows).take 200)

/-- One aggregated row of the `charts` response. -/
structure ChartItem where
  track_id : Nat
  downloads : Nat
  first_downloaded : Int
  last_downloaded : Int
deriving Repr, DecidableEq

/-- `order_by("-downloads", "-last_downloaded")` as a Boolean order. -/
def chartGe (a b : ChartItem) : Bool :=
  b.downloads < a.downloads ||
    (b.downloads = a.downloads && b.last_downloaded ≤ a.last_downloaded)

/-- Insert into a list sorted by `le`. -/
def insertLe (le : ChartItem → ChartItem → Bool) (x : ChartItem) :
    List ChartItem → List ChartItem
  | [] => [x]
  | y :: ys => if le x y then x :: y :: ys else y :: insertLe le x ys

/-- Insertion sort by `le`. -/
def sortLe (le : ChartItem → ChartItem → Bool) : List ChartItem → List ChartItem
  | [] => []
  | x :: xs => insertLe le x (sortLe le xs)

/-- The grouped aggregation of `charts` (`views.py` lines 247-262):
group the (already period-filtered) rows by track, count downloads,
take min/max timestamps, order by downloads then recency, cap at `limit`. -/
def chartsAgg (rows : List HistoryRow) (limit : Nat) : List ChartItem :=
  let tids := (rows.map (fun h => h.track_id)).dedup
  let items := tids.map (fun tid =>
    let ds := (rows.filter (fun h => h.track_id = tid)).map (fun h => h.downloaded_at)
    { track_id := tid
      downloads := ds.length
      first_downloaded := ds.foldl min (ds.headD 0)
      last_downloaded := ds.foldl max (ds.headD 0) })
  (sortLe chartGe items).take limit

/-- `timedelta(days=1)` in seconds. -/
def daySeconds : Int := 86400

/-- The `days_map` of `views.py` line 235. -/
def daysMap (p : String) : Option Int :=
  if p = "week" then some 7
  else if p = "month" then some 30
  else if p = "year" then some 365
  else none

/-- The `charts` response record. -/
structure ChartsResp where
  httpStatus : Nat
  error : Option String := none
  items : List ChartItem := []
  period : Option String := none
  limit : Option Nat := none
deriving Repr, DecidableEq

/-- The `charts` view (`views.py` lines 226-278): default period `week`,
lowercased and stripped; limit default 20 clamped to 1..100 (`400` when
`int()` fails); periods in `days_map` filter to a cutoff `now - days`;
`all`, `*` and the empty string apply no cutoff; anything else is
`400 invalid period`.  No bot-service oracle is taken: the view makes no
bot call. -/
def charts (periodParam limitParam : Option String) (db : Db) (now : Int) :
    ChartsResp :=
  let period := pyStrip (pyLower (pyOrStr periodParam "week"))
  let limit_raw := pyOrStr limitParam "20"
  match pyInt limit_raw with
  | none => { httpStatus := 400, error := some "invalid limit" }
  | some n =>
    let limit := (max 1 (min 100 n)).toNat
    match daysMap period with
    | some d =>
      let cutoff := now - daySeconds * d
      { httpStatus := 200
        items := chartsAgg (db.history.filter (fun h => cutoff ≤ h.downloaded_at)) limit
        period := some period, limit := some limit }
    | none =>
      if period = "all" ∨ period = "*" ∨ period = "" then
        { httpStatus := 200, items := chartsAgg db.history limit
          period := some period, limit := some limit }
      else
        { httpStatus := 400, error := some "invalid period" }

/-! ## Theorems -/

/-- C8: `normalize_code` is a pure function that returns the trimmed input
when every character remaining after trimming is a decimal digit (vacuously
also when nothing remains), and the empty string otherwise; in particular
any string still containing a non-digit after trimming normalizes to empty. -/
theorem C8_normalize_code_contract (s : String) :
    normalize_code s =
      if (pyStrip s).data.all Char.isDigit then pyStrip s else "" := by
  unfold normalize_code pyIsDigit
  cases h : (pyStrip s).data with
  | nil =>
    have he : pyStrip s = "" := by
      cases hs : pyStrip s with
      | mk l => simp only [hs] at h; simp [h]
    simp [he]
  | cons c cs =>
    simp only [h, List.isEmpty_cons, Bool.not_false, Bool.true_and]

/-- C7 (counterexample): a malformed response body with HTTP status 200 is
NOT turned into a `(500, {error})` result — `_api_post` keeps the original
status and only synthesizes the body. -/
theorem C7_counterexample :
    apiPost (HttpOutcome.resp 200 none "oops") = ⟨200, some "oops"⟩ ∧
    (apiPost (HttpOutcome.resp 200 none "oops")).status ≠ 500 := by decide

/-- C7 (amended): `_api_post` is a total function on transport outcomes, so
no exception crosses into the views; a connection error synthesizes
`(500, {error: message})`, while a malformed response body keeps the
response's own HTTP status and synthesizes `{error: raw text}` as the body;
a parsed body is passed through with its status. -/
theorem C7_amended_transport_boundary :
    (∀ msg, apiPost (HttpOutcome.exn msg) = ⟨500, some msg⟩) ∧
    (∀ st txt, apiPost (HttpOutcome.resp st none txt) = ⟨st, some txt⟩) ∧
    (∀ st b txt, apiPost (HttpOutcome.resp st (some b) txt) = ⟨st, b.error⟩) :=
  ⟨fun _ => rfl, fun _ _ => rfl, fun _ _ _ => rfl⟩

/-- C1: when the resolved logout code (body/query, else session, else
empty) is empty after trimming or contains a non-digit, the handler makes
no bot call, removes both session fields and answers
`200 {status: not_linked}`; and a second logout on the cleared session with
no supplied code again answers `not_linked` with no bot call. -/
theorem C1_logout_invalid_code_is_local_noop (isGet : Bool)
    (bodyCode queryCode : Option String) (sess : Session)
    (bot : String → BotResult) (hasApiKey : Bool)
    (h : pyIsDigit (pyStrip (logoutResolveCode isGet bodyCode queryCode sess)) = false) :
    logout isGet bodyCode queryCode sess bot hasApiKey =
      ({ httpStatus := 200, status := some "not_linked" },
       { linked := none, linked_code := none }, []) ∧
    logout isGet none none { linked := none, linked_code := none } bot hasApiKey =
      ({ httpStatus := 200, status := some "not_linked" },
       { linked := none, linked_code := none }, []) := by
  constructor
  · unfold logout
    by_cases hc0 : pyStrip (logoutResolveCode isGet bodyCode queryCode sess) = ""
    · simp [hc0]
    · simp [hc0, h]
  · cases isGet <;> rfl

/-- C2 (counterexample): with session code `"555"` and the bot answering
status 200 with body error `"code not found"` (an error in the
reconciliation set), the handler responds `logged_out`, not `not_linked`:
the reconciliation branch is NOT taken regardless of HTTP status — status
200 wins first. -/
theorem C2_counterexample :
    errInReconcileSet (some "code not found") = true ∧
    (logout false (some "555") none { linked := some true, linked_code := some "555" }
        (fun _ => ⟨200, some "code not found"⟩) true).1.status = some "logged_out" ∧
    (logout false (some "555") none { linked := some true, linked_code := some "555" }
        (fun _ => ⟨200, some "code not found"⟩) true).1.status ≠ some "not_linked" := by
  decide

/-- C2 (amended): for every logout request that reaches the bot call, if
the bot's HTTP status is not 200 and the body's error is in
`{code not found, user not found, invalid code, user_id or code required}`,
the handler clears both session fields and responds
`200 {status: not_linked}` (on status 200 the session is also cleared but
the response is `logged_out`). -/
theorem C2_amended_logout_reconciles_not_linked (isGet : Bool)
    (bodyCode queryCode : Option String) (sess : Session)
    (bot : String → BotResult) (hasApiKey : Bool)
    (hvalid : pyIsDigit (pyStrip (logoutResolveCode isGet bodyCode queryCode sess)) = true)
    (hstat : (bot (pyStrip (logoutResolveCode isGet bodyCode queryCode sess))).status ≠ 200)
    (herr : errInReconcileSet
      (bot (pyStrip (logoutResolveCode isGet bodyCode queryCode sess))).error = true) :
    logout isGet bodyCode queryCode sess bot hasApiKey =
      ({ httpStatus := 200, status := some "not_linked" },
       { linked := none, linked_code := none },
       [pyStrip (logoutResolveCode isGet bodyCode queryCode sess)]) := by
  have hne : ¬(pyStrip (logoutResolveCode isGet bodyCode queryCode sess) = "") := by
    intro h0
    rw [h0] at hvalid
    exact absurd hvalid (by decide)
  unfold logout
  simp [hne, hvalid, hstat, herr]

/-- C3: for every logout request reaching the bot, a bot status of 401
(body error outside the reconciliation set) yields a 502 response, and any
5xx status (error outside the set) yields a 502 whose `detail` wraps the
bot's error; in both cases the session is returned exactly as it was. -/
theorem C3_logout_502_preserves_session (isGet : Bool)
    (bodyCode queryCode : Option String) (sess : Session)
    (bot : String → BotResult) (hasApiKey : Bool)
    (hvalid : pyIsDigit (pyStrip (logoutResolveCode isGet bodyCode queryCode sess)) = true)
    (herr : errInReconcileSet
      (bot (pyStrip (logoutResolveCode isGet bodyCode queryCode sess))).error = false)
    (hstat : (bot (pyStrip (logoutResolveCode isGet bodyCode queryCode sess))).status = 401 ∨
      (500 ≤ (bot (pyStrip (logoutResolveCode isGet bodyCode queryCode sess))).status ∧
       (bot (pyStrip (logoutResolveCode isGet bodyCode queryCode sess))).status < 600)) :
    (logout isGet bodyCode queryCode sess bot hasApiKey).1.httpStatus = 502 ∧
    (logout isGet bodyCode queryCode sess bot hasApiKey).2.1 = sess ∧
    (500 ≤ (bot (pyStrip (logoutResolveCode isGet bodyCode queryCode sess))).status →
      (logout isGet bodyCode queryCode sess bot hasApiKey).1.detail =
        (bot (pyStrip (logoutResolveCode isGet bodyCode queryCode sess))).error) := by
  have hne : ¬(pyStrip (logoutResolveCode isGet bodyCode queryCode sess) = "") := by
    intro h0
    rw [h0] at hvalid
    exact absurd hvalid (by decide)
  unfold logout
  rcases hstat with h401 | ⟨h5a, h5b⟩
  · have hn200 : ¬((bot (pyStrip (logoutResolveCode isGet bodyCode queryCode sess))).status = 200) := by
      omega
    simp [hne, hvalid, hn200, herr, h401]
  · have hn200 : ¬((bot (pyStrip (logoutResolveCode isGet bodyCode queryCode sess))).status = 200) := by
      omega
    have hn401 : ¬((bot (pyStrip (logoutResolveCode isGet bodyCode queryCode sess))).status = 401) := by
      omega
    simp [hne, hvalid, hn200, herr, hn401, h5a, h5b]

/-- C1 witness: concrete POST logout with non-digit body code `"abc"` on a
linked session. -/
theorem C1_witness :
    logout false (some "abc") none { linked := some true, linked_code := some "7" }
      (fun _ => ⟨200, none⟩) true =
      ({ httpStatus := 200, status := some "not_linked" },
       { linked := none, linked_code := none }, []) ∧
    logout false none none { linked := none, linked_code := none }
      (fun _ => ⟨200, none⟩) true =
      ({ httpStatus := 200, status := some "not_linked" },
       { linked := none, linked_code := none }, []) :=
  C1_logout_invalid_code_is_local_noop false (some "abc") none
    { linked := some true, linked_code := some "7" } (fun _ => ⟨200, none⟩) true
    (by decide)

/-- C2 witness: bot answers `(400, {error: code not found})` to the session
code `"555"`; the session is cleared and the response is `not_linked`. -/
theorem C2_witness :
    logout false none none { linked := some true, linked_code := some "555" }
      (fun _ => ⟨400, some "code not found"⟩) true =
      ({ httpStatus := 200, status := some "not_linked" },
       { linked := none, linked_code := none }, ["555"]) :=
  C2_amended_logout_reconciles_not_linked false none none
    { linked := some true, linked_code := some "555" }
    (fun _ => ⟨400, some "code not found"⟩) true (by decide) (by decide) (by decide)

/-- C3 witness: bot answers `(503, {error: down})`; the handler responds
502 with the bot error as detail and the session is untouched. -/
theorem C3_witness :
    (logout false none none { linked := some true, linked_code := some "9" }
        (fun _ => ⟨503, some "down"⟩) true).1.httpStatus = 502 ∧
    (logout false none none { linked := some true, linked_code := some "9" }
        (fun _ => ⟨503, some "down"⟩) true).2.1 =
      { linked := some true, linked_code := some "9" } ∧
    (500 ≤ ((fun _ => (⟨503, some "down"⟩ : BotResult)) (pyStrip (logoutResolveCode false none none
        { linked := some true, linked_code := some "9" }))).status →
      (logout false none none { linked := some true, linked_code := some "9" }
          (fun _ => ⟨503, some "down"⟩) true).1.detail =
        ((fun _ => (⟨503, some "down"⟩ : BotResult)) (pyStrip (logoutResolveCode false none none
          { linked := some true, linked_code := some "9" }))).error) :=
  C3_logout_502_preserves_session false none none
    { linked := some true, linked_code := some "9" }
    (fun _ => ⟨503, some "down"⟩) true (by decide) (by decide) (Or.inr (by decide))

/-- C4: when the (stripped) link code is non-blank and the bot answers 200,
the session becomes exactly `{linked: true, linked_code: code}` and the
response is `200 {status: linked, code}`; on every non-200 bot status the
session is returned unchanged (and the response is a 400). -/
theorem C4_link_mutates_only_on_success (bodyCode : Option String) (sess : Session)
    (bot : String → BotResult)
    (h : pyStrip (pyOrStr bodyCode "") ≠ "") :
    ((bot (pyStrip (pyOrStr bodyCode ""))).status = 200 →
      link bodyCode sess bot =
        ({ httpStatus := 200, status := some "linked",
           code := some (pyStrip (pyOrStr bodyCode "")) },
         { linked := some true, linked_code := some (pyStrip (pyOrStr bodyCode "")) },
         [pyStrip (pyOrStr bodyCode "")])) ∧
    ((bot (pyStrip (pyOrStr bodyCode ""))).status ≠ 200 →
      (link bodyCode sess bot).2.1 = sess ∧
      (link bodyCode sess bot).1.httpStatus = 400) := by
  constructor
  · intro h200
    unfold link
    simp [h, h200]
  · intro hn200
    unfold link
    simp [h, hn200]

/-- C4 witness: code `"12345678"`, bot answers `(200, {})`. -/
theorem C4_witness :
    link (some "12345678") { linked := none, linked_code := none }
      (fun _ => ⟨200, none⟩) =
      ({ httpStatus := 200, status := some "linked", code := some "12345678" },
       { linked := some true, linked_code := some "12345678" }, ["12345678"]) :=
  (C4_link_mutates_only_on_success (some "12345678")
    { linked := none, linked_code := none } (fun _ => ⟨200, none⟩)
    (by decide)).1 (by decide)

/-- C5 (counterexample): the `link` view has no digit gate — the non-digit
code `"abc"` is not rejected with `400 {error: invalid code}`; instead a
bot call with `"abc"` is made. -/
theorem C5_counterexample :
    (link (some "abc") { linked := none, linked_code := none }
        (fun _ => ⟨418, none⟩)).2.2 = ["abc"] ∧
    (link (some "abc") { linked := none, linked_code := none }
        (fun _ => ⟨418, none⟩)).1.error ≠ some "invalid code" := by
  decide

/-- C5 (amended): a blank (empty after trimming) code is rejected with
`400 {error: code required}` and no bot call; but a non-blank code is
forwarded to the bot as-is whether or not it is all digits — `link`
performs no digit-only admission check. -/
theorem C5_amended_link_blank_gate_only (bodyCode : Option String) (sess : Session)
    (bot : String → BotResult) :
    (pyStrip (pyOrStr bodyCode "") = "" →
      link bodyCode sess bot =
        ({ httpStatus := 400, error := some "code required" }, sess, [])) ∧
    (pyStrip (pyOrStr bodyCode "") ≠ "" →
      (link bodyCode sess bot).2.2 = [pyStrip (pyOrStr bodyCode "")]) := by
  constructor
  · intro hb
    unfold link
    simp [hb]
  · intro hb
    unfold link
    by_cases h200 : (bot (pyStrip (pyOrStr bodyCode ""))).status = 200 <;>
      simp [hb, h200]

/-- C5 witness: a whitespace-only code is rejected locally with
`code required` and zero bot calls. -/
theorem C5_witness :
    link (some "   ") { linked := none, linked_code := none }
      (fun _ => ⟨200, none⟩) =
      ({ httpStatus := 400, error := some "code required" },
       { linked := none, linked_code := none }, []) :=
  (C5_amended_link_blank_gate_only (some "   ")
    { linked := none, linked_code := none } (fun _ => ⟨200, none⟩)).1 (by decide)

/-- C6 (counterexample): on a bot status of 401 both `link` and
`send_song` answer 400, not 502 — the 401→502 mapping exists only in
`logout`. -/
theorem C6_counterexample :
    (link (some "123") { linked := none, linked_code := none }
        (fun _ => ⟨401, none⟩)).1.httpStatus = 400 ∧
    (link (some "123") { linked := none, linked_code := none }
        (fun _ => ⟨401, none⟩)).1.httpStatus ≠ 502 ∧
    (send_song (some "q") (some "123") { linked := none, linked_code := none }
        (fun _ _ => ⟨401, none⟩)).1.httpStatus = 400 ∧
    (send_song (some "q") (some "123") { linked := none, linked_code := none }
        (fun _ _ => ⟨401, none⟩)).1.httpStatus ≠ 502 := by
  decide

/-- C6 (amended): for every link and send_song request that reaches the
bot call, a bot status of 401 falls into the generic non-200 branch and is
answered with HTTP 400 carrying the bot's error (or a generic failure
message); no 502 mapping exists in these two views. -/
theorem C6_amended_401_is_400_for_link_send (bodyCode bodyQuery : Option String)
    (sess : Session) (bot : String → BotResult) (bot2 : String → String → BotResult)
    (hl : pyStrip (pyOrStr bodyCode "") ≠ "")
    (hl401 : (bot (pyStrip (pyOrStr bodyCode ""))).status = 401)
    (hq : pyStrip (pyOrStr bodyQuery "") ≠ "")
    (hc : pyStrip (pyOrStr bodyCode (pyOrStr sess.linked_code "")) ≠ "")
    (hs401 : (bot2 (pyStrip (pyOrStr bodyCode (pyOrStr sess.linked_code "")))
      (pyStrip (pyOrStr bodyQuery ""))).status = 401) :
    (link bodyCode sess bot).1.httpStatus = 400 ∧
    (send_song bodyQuery bodyCode sess bot2).1.httpStatus = 400 := by
  constructor
  · unfold link
    simp [hl, hl401]
  · unfold send_song
    simp [hq, hc, hs401]

/-- C6 witness: concrete link and send_song requests with the bot
answering 401. -/
theorem C6_witness :
    (link (some "88") { linked := none, linked_code := none }
        (fun _ => ⟨401, none⟩)).1.httpStatus = 400 ∧
    (send_song (some "song") (some "88") { linked := none, linked_code := none }
        (fun _ _ => ⟨401, none⟩)).1.httpStatus = 400 :=
  C6_amended_401_is_400_for_link_send (some "88") (some "song")
    { linked := none, linked_code := none }
    (fun _ => ⟨401, none⟩) (fun _ _ => ⟨401, none⟩)
    (by decide) (by decide) (by decide) (by decide) (by decide)

/-- C9 (counterexample): the period `"*"` is outside
`{week, month, year, all}` yet `charts` accepts it (HTTP 200, no error)
instead of answering 400 — the accepted set also contains `"*"` and the
empty string. -/
theorem C9_counterexample :
    (charts (some "*") none ⟨[], []⟩ 0).httpStatus = 200 ∧
    (charts (some "*") none ⟨[], []⟩ 0).error = none := by
  decide

/-- C9 (amended): with a parseable limit, a period (lowercased, stripped)
outside `{week, month, year, all, *, ""}` is answered locally with
`400 {error: invalid period}` (the view takes no bot oracle at all);
`week`/`month`/`year` aggregate only rows within the last 7/30/365 days of
`now`, and `all` (like `*` and the empty string) applies no cutoff. -/
theorem C9_amended_charts_period_validation (periodParam limitParam : Option String)
    (db : Db) (now : Int) (n : Int)
    (hlim : pyInt (pyOrStr limitParam "20") = some n) :
    (pyStrip (pyLower (pyOrStr periodParam "week")) ∉
        (["week", "month", "year", "all", "*", ""] : List String) →
      charts periodParam limitParam db now =
        { httpStatus := 400, error := some "invalid period" }) ∧
    (∀ d, daysMap (pyStrip (pyLower (pyOrStr periodParam "week"))) = some d →
      charts periodParam limitParam db now =
        { httpStatus := 200
          items := chartsAgg (db.history.filter
            (fun h => now - daySeconds * d ≤ h.downloaded_at)) (max 1 (min 100 n)).toNat
          period := some (pyStrip (pyLower (pyOrStr periodParam "week")))
          limit := some (max 1 (min 100 n)).toNat }) ∧
    ((pyStrip (pyLower (pyOrStr periodParam "week")) = "all" ∨
      pyStrip (pyLower (pyOrStr periodParam "week")) = "*" ∨
      pyStrip (pyLower (pyOrStr periodParam "week")) = "") →
      charts periodParam limitParam db now =
        { httpStatus := 200
          items := chartsAgg db.history (max 1 (min 100 n)).toNat
          period := some (pyStrip (pyLower (pyOrStr periodParam "week")))
          limit := some (max 1 (min 100 n)).toNat }) := by
  refine ⟨?_, ?_, ?_⟩
  · intro hp
    simp only [List.mem_cons, List.not_mem_nil, or_false, not_or] at hp
    obtain ⟨h1, h2, h3, h4, h5, h6⟩ := hp
    simp only [charts]
    rw [hlim]
    simp [daysMap, h1, h2, h3, h4, h5, h6]
  · intro d hd
    simp only [charts]
    rw [hlim]
    simp [hd]
  · intro hp
    have hdm : daysMap (pyStrip (pyLower (pyOrStr periodParam "week"))) = none := by
      rcases hp with h | h | h <;> rw [h] <;> decide
    simp only [charts]
    rw [hlim]
    simp [hdm, hp]

/-- C9 witness: period `oops` with default limit is rejected with
`invalid period`; period `week` filters to the last 7 days; period `all`
takes everything. -/
theorem C9_witness :
    charts (some "oops") none ⟨[], [⟨1, 9, 5, 100⟩]⟩ 1000000 =
      { httpStatus := 400, error := some "invalid period" } ∧
    charts (some "week") none ⟨[], [⟨1, 9, 5, 100⟩]⟩ 1000000 =
      { httpStatus := 200
        items := chartsAgg ([⟨1, 9, 5, 100⟩].filter
          (fun h => 1000000 - daySeconds * 7 ≤ h.downloaded_at)) 20
        period := some "week", limit := some 20 } :=
  ⟨(C9_amended_charts_period_validation (some "oops") none ⟨[], [⟨1, 9, 5, 100⟩]⟩
      1000000 20 (by decide)).1 (by decide),
   (C9_amended_charts_period_validation (some "week") none ⟨[], [⟨1, 9, 5, 100⟩]⟩
      1000000 20 (by decide)).2.1 7 (by decide)⟩

/-- C10: whenever `history` answers 200, its item list has at most 200
entries and is ordered by `downloaded_at` descending; the cap is the
constant 200 baked into the view — no request input reaches it. -/
theorem C10_history_cap_and_order (queryCode : Option String) (sess : Session)
    (db : Db) (h200 : (history queryCode sess db).1.httpStatus = 200) :
    (history queryCode sess db).2.length ≤ 200 ∧
    (history queryCode sess db).2.Pairwise histGe := by
  unfold history at h200 ⊢
  by_cases hc : pyStrip (pyOrStr queryCode (pyOrStr sess.linked_code "")) = ""
  · simp [hc] at h200
  · by_cases hd : pyIsDigit (pyStrip (pyOrStr queryCode (pyOrStr sess.linked_code ""))) = true
    · cases hu : (db.users.filter (fun u => u.website_link_code =
        strToNat (pyStrip (pyOrStr queryCode (pyOrStr sess.linked_code ""))))).head? with
      | none => simp [hc, hd, hu] at h200
      | some u =>
        by_cases hz : u.id = 0
        · simp [hc, hd, hu, hz] at h200
        · simp only [hc, hd, hu, hz, if_false, Bool.not_true]
          constructor
          · exact le_trans (List.length_take_le _ _) (le_refl _)
          · exact List.Pairwise.sublist (List.take_sublist _ _)
              (List.sorted_insertionSort histGe _)
    · rw [Bool.not_eq_true] at hd
      simp [hc, hd] at h200

/-- C10 witness: a two-row history for the user with code 42 comes back
in descending timestamp order, within the cap. -/
theorem C10_witness :
    (history (some "42") { linked := none, linked_code := none }
        ⟨[⟨9, 42⟩], [⟨1, 9, 5, 100⟩, ⟨2, 9, 6, 200⟩]⟩).2.length ≤ 200 ∧
    (history (some "42") { linked := none, linked_code := none }
        ⟨[⟨9, 42⟩], [⟨1, 9, 5, 100⟩, ⟨2, 9, 6, 200⟩]⟩).2.Pairwise histGe :=
  C10_history_cap_and_order (some "42") { linked := none, linked_code := none }
    ⟨[⟨9, 42⟩], [⟨1, 9, 5, 100⟩, ⟨2, 9, 6, 200⟩]⟩ (by decide)

end WebMusic
